import Mathlib

/-!
Verification of the local-first development proxy server (`src/server.js`).

The server is embedded shallowly: the filesystem and the network are
abstract oracles passed as parameters, and the request handler is a pure
Lean function mirroring `handleRequest`, `serveLocalFile`, `proxyRequest`
and the MIME table of the source line by line.
-/

namespace Server

/-! ## Path helpers: models of Node `path.join` and `path.extname` (POSIX) -/

/-- Split a character list on a separator character.  Always returns a
nonempty list of segments; separators at the ends yield empty segments,
matching `String.splitOn` on a single-character separator. -/
def splitChar (c : Char) : List Char → List (List Char)
  | [] => [[]]
  | x :: xs =>
    match splitChar c xs with
    | [] => if x = c then [[], []] else [[x]]
    | h :: t => if x = c then [] :: h :: t else (x :: h) :: t

/-- Whether a POSIX path (as characters) is absolute. -/
def isAbsolute (cs : List Char) : Bool :=
  match cs with
  | '/' :: _ => true
  | _ => false

/-- One step of Node path normalization over segments.  The stack is kept
in reverse order.  Empty segments and `.` are dropped; `..` pops a normal
segment, is dropped at the root of an absolute path, and accumulates at
the front of a relative path. -/
def normSegStep (abs : Bool) (stack : List (List Char)) (seg : List Char) :
    List (List Char) :=
  if seg = [] ∨ seg = ['.'] then stack
  else if seg = ['.', '.'] then
    match stack with
    | [] => if abs then [] else [seg]
    | top :: rest => if top = ['.', '.'] then seg :: stack else rest
  else seg :: stack

/-- Rejoin segments with `/` separators. -/
def joinSegs : List (List Char) → List Char
  | [] => []
  | [s] => s
  | s :: rest => s ++ '/' :: joinSegs rest

/-- Node `path.normalize` (POSIX) on a character list: splits on `/`,
resolves `.` and `..`, collapses repeated separators. -/
def normalizeChars (cs : List Char) : List Char :=
  let abs := isAbsolute cs
  let stack := (splitChar '/' cs).foldl (normSegStep abs) []
  let body := joinSegs stack.reverse
  if body = [] then (if abs then ['/'] else ['.'])
  else if abs then '/' :: body else body

/-- Node `path.join(a, b)` (POSIX): joins the non-empty parts with `/`
and normalizes; two empty parts yield `"."`. -/
def join (a b : String) : String :=
  if a = "" && b = "" then "."
  else if a = "" then String.mk (normalizeChars b.toList)
  else if b = "" then String.mk (normalizeChars a.toList)
  else String.mk (normalizeChars (a.toList ++ '/' :: b.toList))

/-- Characters of a path after the last occurrence of `c` (the whole list
when `c` does not occur). -/
def afterLast (c : Char) (l : List Char) : List Char :=
  (l.reverse.takeWhile (fun x => x ≠ c)).reverse

/-- Node `path.extname` (POSIX): the substring of the basename from its
last `.` (inclusive); empty when the basename has no `.` or starts with
its only `.` (hidden files such as `.bashrc`). -/
def extname (p : String) : String :=
  let b := afterLast '/' p.toList
  let suf := afterLast '.' b
  if suf.length = b.length then ""
  else if suf.length + 1 = b.length then ""
  else String.mk ('.' :: suf)

/-! ## MIME registry (`src/server.js` lines 14-29) -/

/-- The MIME type mapping, entry for entry from the source object literal. -/
def mimeTypes : List (String × String) :=
  [ (".html", "text/html")
  , (".js", "application/javascript")
  , (".css", "text/css")
  , (".json", "application/json")
  , (".png", "image/png")
  , (".jpg", "image/jpeg")
  , (".jpeg", "image/jpeg")
  , (".gif", "image/gif")
  , (".svg", "image/svg+xml")
  , (".ico", "image/x-icon")
  , (".woff", "font/woff")
  , (".woff2", "font/woff2")
  , (".ttf", "font/ttf")
  , (".eot", "application/vnd.ms-fontobject") ]

/-- The lookup `mimeTypes[ext] || 'application/octet-stream'` performed at
`src/server.js` line 46. -/
def mimeLookup (ext : String) : String :=
  match mimeTypes.lookup ext with
  | some ct => ct
  | none => "application/octet-stream"

/-! ## Abstract environment: filesystem and network oracles -/

/-- Bytes of a file or body. -/
abbrev Bytes := List Nat

/-- The filesystem as seen by the server.  `access` models
`fs.promises.access` succeeding (`fileExists`, lines 32-39); `read` models
`fs.promises.readFile`: `some bytes` on success, `none` when the read
throws (permission denied, vanished file, directory, ...). -/
structure FS where
  access : String → Bool
  read : String → Option Bytes

/-- A remote HTTP response as delivered by `fetch`.  `response.ok` is
derived from the status as in the fetch specification. -/
structure ProxyResp where
  status : Nat
  contentType : Option String
  body : Bytes
deriving DecidableEq

/-- `response.ok`: status in the inclusive range 200-299. -/
def ProxyResp.ok (r : ProxyResp) : Bool :=
  200 ≤ r.status && r.status ≤ 299

/-- The network: maps a URL to `some` remote response, or `none` when the
`fetch` call itself throws (DNS failure, connection refused, ...). -/
abbrev Net := String → Option ProxyResp

/-- The process environment.  `scriptDir` is `__dirname`, the directory
containing `server.js` (lines 7-8); `cwd` is the working directory of the
process, carried here only to compare the code against the wording of the
specification (the code itself never consults it). -/
structure Env where
  scriptDir : String
  cwd : String
deriving DecidableEq

/-! ## Responses and the request handler (`src/server.js` lines 41-154) -/

/-- One response written to the client: the arguments of the single
`res.writeHead`/`res.end` pair of the branch taken. -/
structure Response where
  status : Nat
  headers : List (String × String)
  body : Bytes
deriving DecidableEq

/-- Which branch of the priority chain produced the response. -/
inductive Outcome
  | localHit
  | proxied
  | notFound
deriving DecidableEq

/-- Result of handling one request: the single response written, the
branch that produced it, and the list of outbound proxy URLs fetched. -/
structure HandlerResult where
  response : Response
  outcome : Outcome
  proxyCalls : List String
deriving DecidableEq

/-- The fixed proxy origin (`src/server.js` line 11). -/
def PROXY_HOST : String := "https://allabout.network"

/-- ASCII/code-point bytes of a string, used where the source passes a
JavaScript string to `res.end`. -/
def strBytes (s : String) : Bytes := s.toList.map Char.toNat

/-- `serveLocalFile` (lines 42-58): reads the file; on success responds
200 with the MIME-registry content type of the path extension and the
exact file bytes; on a read error returns `none` (the source returns
`false` and writes nothing). -/
def serveLocalFile (fs : FS) (filePath : String) : Option Response :=
  match fs.read filePath with
  | some content =>
    some { status := 200
         , headers := [ ("Content-Type", mimeLookup (extname filePath))
                      , ("Cache-Control", "no-cache") ]
         , body := content }
  | none => none

/-- `proxyRequest` (lines 61-119): fetches `PROXY_HOST ++ url`; on a
thrown fetch or a non-ok status returns `none`; on success responds 200
with the relayed content type (defaulted when absent), permissive CORS
headers, and the remote body.  The text/binary split of lines 88-110
re-emits the received bytes either as a string or as a buffer, so the
bytes written to the client are the remote bytes in both branches. -/
def proxyRequest (net : Net) (url : String) : Option Response :=
  let proxyUrl := PROXY_HOST ++ url
  match net proxyUrl with
  | none => none
  | some r =>
    if r.ok then
      some { status := 200
           , headers := [ ("Content-Type", r.contentType.getD "application/octet-stream")
                        , ("Cache-Control", "no-cache")
                        , ("Access-Control-Allow-Origin", "*")
                        , ("Access-Control-Allow-Methods", "GET, POST, PUT, DELETE, OPTIONS")
                        , ("Access-Control-Allow-Headers", "Content-Type, Authorization") ]
           , body := r.body }
    else none

/-- The 404 template (lines 142-152) up to the first interpolation. -/
def nfPre : String :=
  "\n      <!DOCTYPE html>\n      <html>\n        <head><title>404 Not Found</title></head>\n        <body>\n          <h1>404 Not Found</h1>\n          <p>The requested resource <code>"

/-- The 404 template between the two interpolations. -/
def nfMid : String :=
  "</code> was not found locally or on the proxy server.</p>\n          <p>Attempted proxy URL: <code>"

/-- The 404 template after the second interpolation. -/
def nfSuf : String :=
  "</code></p>\n        </body>\n      </html>\n    "

/-- The HTML body of the 404 page (lines 142-152), with the two template
interpolations `url` and `PROXY_HOST ++ url` spliced in. -/
def notFoundBody (url : String) : String :=
  nfPre ++ url ++ nfMid ++ (PROXY_HOST ++ url) ++ nfSuf

/-- The 404 response written at lines 141-152. -/
def notFoundResponse (url : String) : Response :=
  { status := 404
  , headers := [("Content-Type", "text/html")]
  , body := strBytes (notFoundBody url) }

/-- Lines 135-153 of `handleRequest`: try the proxy, and on failure write
the 404 page. -/
def tryProxyOr404 (net : Net) (url : String) : HandlerResult :=
  match proxyRequest net url with
  | some resp =>
    { response := resp, outcome := .proxied, proxyCalls := [PROXY_HOST ++ url] }
  | none =>
    { response := notFoundResponse url
    , outcome := .notFound
    , proxyCalls := [PROXY_HOST ++ url] }

/-- The path rewrite of line 123: the bare root maps to the default
document. -/
def rewriteUrl (reqUrl : String) : String :=
  if reqUrl = "/" then "/aem.html" else reqUrl

/-- `url.startsWith('/') ? url.slice(1) : url` from line 124: drop one
leading slash when present. -/
def stripLeadingSlash (url : String) : String :=
  match url.toList with
  | '/' :: rest => String.mk rest
  | _ => url

/-- The candidate filesystem path of line 124:
`join(__dirname, url.startsWith('/') ? url.slice(1) : url)`. -/
def resolvedPath (env : Env) (reqUrl : String) : String :=
  join env.scriptDir (stripLeadingSlash (rewriteUrl reqUrl))

/-- `handleRequest` (lines 122-154): local file first, then proxy, then
the 404 page. -/
def handleRequest (env : Env) (fs : FS) (net : Net) (reqUrl : String) :
    HandlerResult :=
  let url := rewriteUrl reqUrl
  let filePath := resolvedPath env reqUrl
  if fs.access filePath then
    match serveLocalFile fs filePath with
    | some resp => { response := resp, outcome := .localHit, proxyCalls := [] }
    | none => tryProxyOr404 net url
  else tryProxyOr404 net url

/-! ## Derived predicates and concrete fixtures used by the theorems -/

/-- The local branch fully succeeds: the existence check passes and the
read returns bytes. -/
def localServed (fs : FS) (fp : String) : Bool :=
  fs.access fp && (fs.read fp).isSome

/-- The proxy branch succeeds: the fetch returns and its status is ok. -/
def proxyOk (net : Net) (url : String) : Bool :=
  match net (PROXY_HOST ++ url) with
  | some r => r.ok
  | none => false

/-- `needle` occurs contiguously inside `hay`. -/
def containsSub (needle hay : Bytes) : Prop :=
  ∃ pre post, hay = pre ++ needle ++ post

/-- `pre` is an initial run of `l` (character-list version of a
starts-with test, used to state that a resolved path escapes the root). -/
def leadsWith : List Char → List Char → Bool
  | [], _ => true
  | _ :: _, [] => false
  | a :: as, b :: bs => a = b && leadsWith as bs

/-- The resolved path stays under the root directory. -/
def underRoot (root p : String) : Bool :=
  leadsWith (root ++ "/").toList p.toList

/-- A fixed environment whose script directory and working directory
differ, as when the process is launched from elsewhere. -/
def envA : Env := { scriptDir := "/srv/app", cwd := "/home/dev" }

/-- A filesystem holding exactly `/srv/app/index.html` with bytes
`[104, 105]` (the text `hi`). -/
def fsIndex : FS :=
  { access := fun p => p == "/srv/app/index.html"
  , read := fun p => if p == "/srv/app/index.html" then some [104, 105] else none }

/-- The empty filesystem. -/
def fsEmpty : FS :=
  { access := fun _ => false, read := fun _ => none }

/-- A filesystem where `/srv/app/locked.css` passes the existence check
but every read fails. -/
def fsLocked : FS :=
  { access := fun p => p == "/srv/app/locked.css", read := fun _ => none }

/-- A filesystem holding exactly `/srv/secret.txt`, one level above the
root `/srv/app`. -/
def fsSecret : FS :=
  { access := fun p => p == "/srv/secret.txt"
  , read := fun p => if p == "/srv/secret.txt" then some [115] else none }

/-- A network where every fetch throws. -/
def netNone : Net := fun _ => none

/-- A network answering every URL with status 204 (a success status that
is not 200) and a two-byte text body. -/
def net204 : Net :=
  fun _ => some { status := 204, contentType := some "text/plain", body := [111, 107] }

/-- A network answering every URL with status 200, JSON content type and
a two-byte body. -/
def netJson : Net :=
  fun _ => some { status := 200, contentType := some "application/json", body := [123, 125] }

/-- `strBytes` distributes over string append. -/
theorem strBytes_append (a b : String) : strBytes (a ++ b) = strBytes a ++ strBytes b := by
  simp [strBytes, String.toList]

/-! ## Helper lemmas shared by the claim theorems -/

theorem tryProxy_spec (net : Net) (url : String) :
    (tryProxyOr404 net url).outcome =
      (if proxyOk net url then Outcome.proxied else Outcome.notFound) ∧
    (tryProxyOr404 net url).proxyCalls = [PROXY_HOST ++ url] := by
  unfold tryProxyOr404 proxyRequest proxyOk
  cases hnet : net (PROXY_HOST ++ url)
  · simp [hnet]
  · rename_i r
    by_cases hok : r.ok = true <;> simp [hnet, hok]

theorem handleRequest_total_miss (env : Env) (fs : FS) (net : Net) (reqUrl : String)
    (hacc : fs.access (resolvedPath env reqUrl) = false)
    (hfail : ∀ r, net (PROXY_HOST ++ rewriteUrl reqUrl) = some r → r.ok = false) :
    handleRequest env fs net reqUrl =
      { response := notFoundResponse (rewriteUrl reqUrl)
      , outcome := Outcome.notFound
      , proxyCalls := [PROXY_HOST ++ rewriteUrl reqUrl] } := by
  unfold handleRequest tryProxyOr404 proxyRequest
  cases hnet : net (PROXY_HOST ++ rewriteUrl reqUrl)
  · simp [hacc, hnet]
  · rename_i r
    have hr := hfail r hnet
    simp [hacc, hnet, hr]

theorem rewriteUrl_bytes (reqUrl : String) :
    ∃ t, strBytes (rewriteUrl reqUrl) = strBytes reqUrl ++ t := by
  by_cases h : reqUrl = "/"
  · subst h
    exact ⟨strBytes "aem.html", by rfl⟩
  · exact ⟨[], by simp [rewriteUrl, h, strBytes]⟩

theorem lookup_none_of_keys (l : List (String × String)) (k : String)
    (h : ∀ p ∈ l, p.1 ≠ k) : l.lookup k = none := by
  induction l with
  | nil => rfl
  | cons p ps ih =>
    obtain ⟨a, b⟩ := p
    have ha : a ≠ k := h (a, b) (List.mem_cons_self _ _)
    have hk : (k == a) = false := by
      exact beq_eq_false_iff_ne.mpr (fun hkk => ha hkk.symm)
    simp [List.lookup, hk]
    intro x y hxy hkx
    exact h (x, y) (List.mem_cons_of_mem _ hxy) hkx.symm

/-! ## Claim theorems -/

/-- Claim C1, local precedence: whenever the candidate file of a request
path passes the existence check and its read succeeds, the handler
answers 200 with the exact file bytes and the MIME-registry content type
of the path extension, and issues no outbound proxy request. -/
theorem local_precedence (env : Env) (fs : FS) (net : Net) (reqUrl : String) (content : Bytes)
    (hacc : fs.access (resolvedPath env reqUrl) = true)
    (hread : fs.read (resolvedPath env reqUrl) = some content) :
    handleRequest env fs net reqUrl =
      { response := { status := 200
                    , headers := [ ("Content-Type", mimeLookup (extname (resolvedPath env reqUrl)))
                                 , ("Cache-Control", "no-cache") ]
                    , body := content }
      , outcome := Outcome.localHit
      , proxyCalls := [] } := by
  unfold handleRequest serveLocalFile
  simp [hacc, hread]

/-- Witness for C1: a filesystem holding `/srv/app/index.html` with bytes
`[104, 105]`, against a network that would also answer, serves the local
file as `text/html` with no proxy call. -/
theorem local_precedence_witness :
    fsIndex.access (resolvedPath envA "/index.html") = true ∧
    fsIndex.read (resolvedPath envA "/index.html") = some [104, 105] ∧
    handleRequest envA fsIndex netJson "/index.html" =
      { response := { status := 200
                    , headers := [("Content-Type", "text/html"), ("Cache-Control", "no-cache")]
                    , body := [104, 105] }
      , outcome := Outcome.localHit
      , proxyCalls := [] } :=
  ⟨by rfl, by rfl, local_precedence envA fsIndex netJson "/index.html" [104, 105] (by rfl) (by rfl)⟩

/-- Claim C2 as amended: on a local miss the handler issues exactly one
outbound request, to the exact concatenation of the proxy origin and the
(root-rewritten) request path; on a remote 2xx response it relays the
remote body and content type (defaulting to `application/octet-stream`
when the remote omits one) but always writes status 200, not the remote
status. -/
theorem fallback_correctness (env : Env) (fs : FS) (net : Net) (reqUrl : String)
    (hacc : fs.access (resolvedPath env reqUrl) = false) :
    (handleRequest env fs net reqUrl).proxyCalls = [PROXY_HOST ++ rewriteUrl reqUrl] ∧
    ∀ r, net (PROXY_HOST ++ rewriteUrl reqUrl) = some r → r.ok = true →
      (handleRequest env fs net reqUrl).response =
        { status := 200
        , headers := [ ("Content-Type", r.contentType.getD "application/octet-stream")
                     , ("Cache-Control", "no-cache")
                     , ("Access-Control-Allow-Origin", "*")
                     , ("Access-Control-Allow-Methods", "GET, POST, PUT, DELETE, OPTIONS")
                     , ("Access-Control-Allow-Headers", "Content-Type, Authorization") ]
        , body := r.body } := by
  constructor
  · have hp := tryProxy_spec net (rewriteUrl reqUrl)
    unfold handleRequest
    simp [hacc, hp.2]
  · intro r hnet hok
    unfold handleRequest tryProxyOr404 proxyRequest
    simp [hacc, hnet, hok]

/-- Witness for the amended C2: with no local file and a remote 200 JSON
answer, the handler fetches exactly `https://allabout.network/data/cards.json`
and relays body and content type. -/
theorem fallback_correctness_witness :
    fsEmpty.access (resolvedPath envA "/data/cards.json") = false ∧
    (handleRequest envA fsEmpty netJson "/data/cards.json").proxyCalls =
      ["https://allabout.network/data/cards.json"] ∧
    (handleRequest envA fsEmpty netJson "/data/cards.json").response =
      { status := 200
      , headers := [ ("Content-Type", "application/json")
                   , ("Cache-Control", "no-cache")
                   , ("Access-Control-Allow-Origin", "*")
                   , ("Access-Control-Allow-Methods", "GET, POST, PUT, DELETE, OPTIONS")
                   , ("Access-Control-Allow-Headers", "Content-Type, Authorization") ]
      , body := [123, 125] } :=
  ⟨by rfl,
   (fallback_correctness envA fsEmpty netJson "/data/cards.json" (by rfl)).1,
   (fallback_correctness envA fsEmpty netJson "/data/cards.json" (by rfl)).2
     { status := 200, contentType := some "application/json", body := [123, 125] }
     (by rfl) (by rfl)⟩

/-- Counterexample to C2 as stated: the remote answers 204 (a success
status), yet the client receives 200 — the remote status is not relayed
unchanged.  The source writes the literal 200 at line 98. -/
theorem proxy_status_not_relayed :
    fsEmpty.access (resolvedPath envA "/data.json") = false ∧
    net204 (PROXY_HOST ++ "/data.json") =
      some { status := 204, contentType := some "text/plain", body := [111, 107] } ∧
    (handleRequest envA fsEmpty net204 "/data.json").response.status = 200 ∧
    (handleRequest envA fsEmpty net204 "/data.json").response.status ≠ 204 :=
  ⟨by rfl, by rfl, by rfl, by decide⟩

/-- Claim C3, total-miss behavior: when the local file is absent and the
proxy attempt fails (fetch throws or the remote status is not ok), the
client receives status 404 (hence no 5xx) with content type `text/html`,
and the body contains both the literal requested path and the attempted
proxy URL. -/
theorem total_miss_behavior (env : Env) (fs : FS) (net : Net) (reqUrl : String)
    (hacc : fs.access (resolvedPath env reqUrl) = false)
    (hfail : ∀ r, net (PROXY_HOST ++ rewriteUrl reqUrl) = some r → r.ok = false) :
    (handleRequest env fs net reqUrl).response.status = 404 ∧
    (handleRequest env fs net reqUrl).response.status < 500 ∧
    (handleRequest env fs net reqUrl).response.headers = [("Content-Type", "text/html")] ∧
    containsSub (strBytes reqUrl) (handleRequest env fs net reqUrl).response.body ∧
    containsSub (strBytes (PROXY_HOST ++ rewriteUrl reqUrl))
      (handleRequest env fs net reqUrl).response.body := by
  rw [handleRequest_total_miss env fs net reqUrl hacc hfail]
  refine ⟨rfl, by norm_num [notFoundResponse], rfl, ?_, ?_⟩
  · obtain ⟨t, ht⟩ := rewriteUrl_bytes reqUrl
    refine ⟨strBytes nfPre,
            t ++ strBytes nfMid ++ strBytes (PROXY_HOST ++ rewriteUrl reqUrl) ++ strBytes nfSuf,
            ?_⟩
    simp [notFoundResponse, notFoundBody, strBytes_append, ht, List.append_assoc]
  · refine ⟨strBytes nfPre ++ strBytes (rewriteUrl reqUrl) ++ strBytes nfMid,
            strBytes nfSuf, ?_⟩
    simp [notFoundResponse, notFoundBody, strBytes_append, List.append_assoc]

/-- Witness for C3: an empty filesystem and a network whose fetch always
throws yield the 404 page for `/nonexistent.xyz`, naming the path and the
attempted proxy URL. -/
theorem total_miss_behavior_witness :
    (handleRequest envA fsEmpty netNone "/nonexistent.xyz").response.status = 404 ∧
    (handleRequest envA fsEmpty netNone "/nonexistent.xyz").response.status < 500 ∧
    (handleRequest envA fsEmpty netNone "/nonexistent.xyz").response.headers =
      [("Content-Type", "text/html")] ∧
    containsSub (strBytes "/nonexistent.xyz")
      (handleRequest envA fsEmpty netNone "/nonexistent.xyz").response.body ∧
    containsSub (strBytes (PROXY_HOST ++ rewriteUrl "/nonexistent.xyz"))
      (handleRequest envA fsEmpty netNone "/nonexistent.xyz").response.body := by
  have h := total_miss_behavior envA fsEmpty netNone "/nonexistent.xyz" (by rfl)
    (fun r hr => nomatch hr)
  exact ⟨h.1, h.2.1, h.2.2.1, h.2.2.2.1, h.2.2.2.2⟩

/-- Claim C4, CORS header placement: the three permissive CORS headers are
present on a response exactly when it is proxy-sourced; in particular they
are never on a locally-sourced response. -/
theorem cors_iff_proxied (env : Env) (fs : FS) (net : Net) (reqUrl : String) :
    (("Access-Control-Allow-Origin", "*") ∈ (handleRequest env fs net reqUrl).response.headers ∧
     ("Access-Control-Allow-Methods", "GET, POST, PUT, DELETE, OPTIONS") ∈
       (handleRequest env fs net reqUrl).response.headers ∧
     ("Access-Control-Allow-Headers", "Content-Type, Authorization") ∈
       (handleRequest env fs net reqUrl).response.headers) ↔
    (handleRequest env fs net reqUrl).outcome = Outcome.proxied := by
  unfold handleRequest serveLocalFile tryProxyOr404 proxyRequest
  cases hacc : fs.access (resolvedPath env reqUrl) <;>
    cases hread : fs.read (resolvedPath env reqUrl) <;>
      cases hnet : net (PROXY_HOST ++ rewriteUrl reqUrl) <;>
        simp [hacc, hread, hnet, notFoundResponse]
  all_goals
    rename_i r
    by_cases hok : r.ok = true <;> simp [hok, notFoundResponse]

/-- Claim C5, single-response invariant: every request produces exactly
one response, chosen by the strict priority local, then proxy, then 404,
and at most one outbound proxy call (none on a local hit). -/
theorem single_response_priority (env : Env) (fs : FS) (net : Net) (reqUrl : String) :
    (handleRequest env fs net reqUrl).outcome =
      (if localServed fs (resolvedPath env reqUrl) then Outcome.localHit
       else if proxyOk net (rewriteUrl reqUrl) then Outcome.proxied
       else Outcome.notFound) ∧
    (handleRequest env fs net reqUrl).proxyCalls =
      (if localServed fs (resolvedPath env reqUrl) then []
       else [PROXY_HOST ++ rewriteUrl reqUrl]) := by
  have hp := tryProxy_spec net (rewriteUrl reqUrl)
  unfold handleRequest serveLocalFile localServed
  cases hacc : fs.access (resolvedPath env reqUrl) <;>
    cases hread : fs.read (resolvedPath env reqUrl) <;>
      simp [hacc, hread, hp.1, hp.2]

/-- Claim C6, local read-failure fallthrough: when the read of the
candidate file fails, the handler behaves exactly as if the existence
check had failed for that path — it falls through to the proxy. -/
theorem read_failure_fallthrough (env : Env) (fs : FS) (net : Net) (reqUrl : String)
    (hread : fs.read (resolvedPath env reqUrl) = none) :
    handleRequest env fs net reqUrl =
      handleRequest env
        { access := fun p => if p = resolvedPath env reqUrl then false else fs.access p
        , read := fs.read }
        net reqUrl := by
  unfold handleRequest serveLocalFile
  cases hacc : fs.access (resolvedPath env reqUrl) <;> simp [hacc, hread]

/-- Witness for C6: a file that exists but cannot be read gives the same
result as the same filesystem with that file absent. -/
theorem read_failure_fallthrough_witness :
    fsLocked.access (resolvedPath envA "/locked.css") = true ∧
    fsLocked.read (resolvedPath envA "/locked.css") = none ∧
    handleRequest envA fsLocked netNone "/locked.css" =
      handleRequest envA
        { access := fun p => if p = resolvedPath envA "/locked.css" then false else fsLocked.access p
        , read := fsLocked.read }
        netNone "/locked.css" :=
  ⟨by rfl, by rfl, read_failure_fallthrough envA fsLocked netNone "/locked.css" (by rfl)⟩

/-- Claim C7, root path rewrite: the handler treats a request for `/`
exactly as a request for the default document `/aem.html` — the results
agree in full (local resolution, proxy target, 404 body, everything). -/
theorem root_path_rewrite (env : Env) (fs : FS) (net : Net) :
    handleRequest env fs net "/" = handleRequest env fs net "/aem.html" := rfl

/-- Claim C8, MIME registry totality: the lookup is total — an extension
present in the table maps to its table entry, any other extension
(including case variants such as `.HTML` and the empty extension) maps to
`application/octet-stream`. -/
theorem mime_registry_total (ext ct : String) :
    ((ext, ct) ∈ mimeTypes → mimeLookup ext = ct) ∧
    (ext ∉ mimeTypes.map Prod.fst → mimeLookup ext = "application/octet-stream") ∧
    mimeLookup ".HTML" = "application/octet-stream" ∧
    mimeLookup "" = "application/octet-stream" := by
  refine ⟨?_, ?_, by rfl, by rfl⟩
  · intro h
    simp only [mimeTypes] at h
    fin_cases h <;> rfl
  · intro h
    unfold mimeLookup
    rw [lookup_none_of_keys]
    intro p hp hpk
    exact h (hpk ▸ List.mem_map_of_mem Prod.fst hp)

/-- Witness for C8: a mapped extension and an unmapped one. -/
theorem mime_registry_total_witness :
    mimeLookup ".css" = "text/css" ∧
    mimeLookup ".xyz" = "application/octet-stream" :=
  ⟨(mime_registry_total ".css" "text/css").1 (by simp [mimeTypes]),
   (mime_registry_total ".xyz" "").2.1 (by simp [mimeTypes])⟩

/-- Counterexample to C9 as stated: in an environment whose script
directory `/srv/app` differs from its working directory `/home/dev`, the
candidate path is built from the script directory, not from the working
directory. -/
theorem root_dir_not_cwd :
    resolvedPath envA "/index.html" = "/srv/app/index.html" ∧
    join envA.cwd (stripLeadingSlash "/index.html") = "/home/dev/index.html" ∧
    resolvedPath envA "/index.html" ≠ join envA.cwd (stripLeadingSlash "/index.html") :=
  ⟨by rfl, by rfl, by decide⟩

/-- Claim C9 as amended: the base directory for local resolution is the
directory containing the server script (`__dirname`); the candidate path
is the join of that directory with the stripped request path, and the
process working directory plays no role in the handler at all. -/
theorem root_dir_is_script_dir (env : Env) (fs : FS) (net : Net) (reqUrl : String) (c : String) :
    resolvedPath env reqUrl = join env.scriptDir (stripLeadingSlash (rewriteUrl reqUrl)) ∧
    handleRequest env fs net reqUrl =
      handleRequest { scriptDir := env.scriptDir, cwd := c } fs net reqUrl :=
  ⟨rfl, rfl⟩

/-- Claim C10, no path sanitization: the request path `/../secret.txt`
(which contains a `..` segment) is joined with the root after stripping
one leading slash only; the resolved path `/srv/secret.txt` lies outside
the root `/srv/app`, and when a readable file is there the handler serves
it with status 200. -/
theorem path_traversal (fs : FS) (net : Net) (content : Bytes)
    (hacc : fs.access "/srv/secret.txt" = true)
    (hread : fs.read "/srv/secret.txt" = some content) :
    containsSub (strBytes "..") (strBytes "/../secret.txt") ∧
    resolvedPath envA "/../secret.txt" = join envA.scriptDir "../secret.txt" ∧
    resolvedPath envA "/../secret.txt" = "/srv/secret.txt" ∧
    underRoot envA.scriptDir (resolvedPath envA "/../secret.txt") = false ∧
    (handleRequest envA fs net "/../secret.txt").response.status = 200 ∧
    (handleRequest envA fs net "/../secret.txt").response.body = content := by
  have hrp : resolvedPath envA "/../secret.txt" = "/srv/secret.txt" := by rfl
  have hmain : handleRequest envA fs net "/../secret.txt" =
      { response := { status := 200
                    , headers := [ ("Content-Type", mimeLookup (extname "/srv/secret.txt"))
                                 , ("Cache-Control", "no-cache") ]
                    , body := content }
      , outcome := Outcome.localHit
      , proxyCalls := [] } := by
    unfold handleRequest serveLocalFile
    rw [hrp]
    simp [hacc, hread]
  refine ⟨⟨strBytes "/", strBytes "/secret.txt", by rfl⟩, by rfl, hrp, by rfl, ?_, ?_⟩
  · rw [hmain]
  · rw [hmain]

/-- Witness for C10: a filesystem holding `/srv/secret.txt` one level
above the root; the traversal request is served with the file bytes. -/
theorem path_traversal_witness :
    fsSecret.access "/srv/secret.txt" = true ∧
    fsSecret.read "/srv/secret.txt" = some [115] ∧
    resolvedPath envA "/../secret.txt" = "/srv/secret.txt" ∧
    underRoot envA.scriptDir (resolvedPath envA "/../secret.txt") = false ∧
    (handleRequest envA fsSecret netNone "/../secret.txt").response.status = 200 ∧
    (handleRequest envA fsSecret netNone "/../secret.txt").response.body = [115] := by
  have h := path_traversal fsSecret netNone [115] (by rfl) (by rfl)
  exact ⟨by rfl, by rfl, h.2.2.1, h.2.2.2.1, h.2.2.2.2.1, h.2.2.2.2.2⟩

end Server
